import Mathlib

/-!
# Q-Speech: verification of the speech-scoring and fallback pipeline

A shallow embedding, in Lean 4, of the scoring core of the Q-Speech
repository: the deterministic fallback analyzer and the provider-fallback
orchestration of `server/routes.ts`, the analysis composition of
`server/services/openai-service.ts`, the response sanitizer of
`server/services/gemini-service.ts`, the delivery analyzer of
`server/services/speech/whisper-service.ts`, and the rolling-history
maintenance of the pose-metrics estimator (client `Posedetector`
component).

JavaScript numbers are modelled as `ℚ` (every arithmetic operation that
matters here — `+ - * /`, `Math.min/max/round` — is exact on the rationals;
the two square-root comparisons in the sources are encoded by comparing
squares, which is equivalent for the non-negative quantities involved and
is noted at the definition site).
-/

namespace QSpeech

/-- JavaScript `Math.round`: round half toward positive infinity. -/
def jsRound (q : ℚ) : ℚ := (⌊q + 1/2⌋ : ℤ)

/-- `Math.max(0, Math.min(100, x))`, the clamp used by the sanitizer and
the fallback speech score. -/
def clampScore (q : ℚ) : ℚ := max 0 (min 100 q)

/-! ## Tokenization (`routes.ts`, `generateFallbackAnalysis`)

`transcript.split(/\s+/).filter(w => w.trim().length > 0)` splits on runs
of whitespace and keeps the non-blank tokens; splitting on single
whitespace characters (empty pieces then standing for the extra
delimiters of a run) and filtering out the blank pieces yields the same
list.  `transcript.split(/[.!?]+/).filter(Boolean)` likewise splits on
runs of sentence punctuation; `Boolean` is false exactly on the empty
string.  Characters are handled at the `List Char` level. -/

/-- Split a character list at every character satisfying `p`, keeping
empty pieces (the semantics of `String.prototype.split` with a
single-character class). -/
def splitOn (p : Char → Bool) (acc : List Char) : List Char → List (List Char)
  | [] => [acc.reverse]
  | c :: rest =>
    if p c then acc.reverse :: splitOn p [] rest
    else splitOn p (c :: acc) rest

/-- `String.prototype.trim` (ASCII whitespace). -/
def charTrim (cs : List Char) : List Char :=
  ((cs.dropWhile (fun c => c.isWhitespace)).reverse.dropWhile
    (fun c => c.isWhitespace)).reverse

/-- Word list of a transcript: `split(/\s+/).filter(w => w.trim().length > 0)`. -/
def wordsOf (t : String) : List (List Char) :=
  (splitOn (fun c => c.isWhitespace) [] t.data).filter
    (fun w => !(charTrim w).isEmpty)

/-- Sentence list of a transcript: `split(/[.!?]+/).filter(Boolean)`. -/
def sentencesOf (t : String) : List (List Char) :=
  (splitOn (fun c => c = '.' || c = '!' || c = '?') [] t.data).filter
    (fun s => !s.isEmpty)

/-! ## Filler-word counting (`routes.ts`, `generateFallbackAnalysis`)

The source counts, for each filler phrase `f`, the matches of the
case-insensitive word-boundary regex `\b f \b` in the transcript
(`transcript.match(new RegExp("\\b" + f + "\\b", "gi"))`), and sums the
counts.  The scanner below implements exactly that matching discipline
over the character list of the transcript: a match at a position requires
the preceding character to be absent or a non-word character (`\b` before
a word character), the phrase to match case-insensitively, and the
following character to be absent or a non-word character; the `g` flag
resumes scanning after the end of each match. -/

/-- JavaScript regex `\w`: ASCII letters, digits, underscore. -/
def isWordChar (c : Char) : Bool := c.isAlphanum || c = '_'

/-- A `\b` boundary holds next to `none` (string edge) or a non-word
character.  (All filler phrases begin and end with word characters, so
the boundary test reduces to this.) -/
def boundaryOk : Option Char → Bool
  | none => true
  | some c => !isWordChar c

/-- Case-insensitive character comparison (regex flag `i`). -/
def ciEq (a b : Char) : Bool := a.toLower = b.toLower

/-- Case-insensitive prefix test of a pattern against a character list. -/
def ciPrefix : List Char → List Char → Bool
  | [], _ => true
  | _ :: _, [] => false
  | a :: as, b :: bs => ciEq a b && ciPrefix as bs

/-- One left-to-right scan of the `g`-flagged regex `\b pat \b` (pattern
split into head `p` and tail `ps` so it is never empty): count the
matches, resuming after the final character of each match.  `prev` is the
character immediately before the current position (`none` at the start of
the string).  The `fuel` argument only makes the recursion structural
(each step consumes at least one character, so any `fuel ≥` the length of
the list gives the same value — `scanGo_fuel` below); the scan itself is
the regex engine's. -/
def scanGo (p : Char) (ps : List Char) : ℕ → Option Char → List Char → ℕ
  | _, _, [] => 0
  | 0, _, _ :: _ => 0
  | fuel + 1, prev, c :: rest =>
    if boundaryOk prev && ciPrefix (p :: ps) (c :: rest) &&
        boundaryOk ((c :: rest).drop (ps.length + 1)).head? then
      1 + scanGo p ps fuel (((c :: rest).take (ps.length + 1)).getLastD c)
            ((c :: rest).drop (ps.length + 1))
    else
      scanGo p ps fuel (some c) rest

/-- The scan with sufficient fuel. -/
def scanAux (p : Char) (ps : List Char) (prev : Option Char) (s : List Char) : ℕ :=
  scanGo p ps s.length prev s

/-- Number of matches of `\b pat \b` (case-insensitive, global) in `cs`. -/
def countMatches (pat : List Char) (cs : List Char) : ℕ :=
  match pat with
  | [] => 0
  | p :: ps => scanAux p ps none cs

/-- The fixed filler list of `generateFallbackAnalysis`. -/
def fillerWords : List String :=
  ["um", "uh", "like", "you know", "so", "basically", "actually", "literally"]

/-- Total filler count over a character list: the `reduce` in the source,
summing per-phrase match counts. -/
def fillerCountChars (cs : List Char) : ℕ :=
  (fillerWords.map (fun f => countMatches f.data cs)).sum

/-- Total filler count of a transcript string. -/
def fillerCount (t : String) : ℕ := fillerCountChars t.data

/-! ## The deterministic fallback analyzer
(`routes.ts`, `generateFallbackAnalysis`) -/

/-- JavaScript `v || d` for an optional numeric field: the default is used
when the field is absent or `0` (falsy). -/
def jsOr (v : Option ℚ) (d : ℚ) : ℚ :=
  match v with
  | some x => if x = 0 then d else x
  | none => d

/-- The pose summary optionally posted with the request
(`poseData.posture/gestures/movement`, each possibly absent). -/
structure PoseDataIn where
  posture : Option ℚ
  gestures : Option ℚ
  movement : Option ℚ

structure FillerStats where
  count : ℕ
  rate : ℚ

structure FBSentenceStructure where
  averageLength : ℚ
  varietyScore : ℚ

structure FBGrammar where
  score : ℚ
  fillerWords : FillerStats
  vocabularyRichness : ℚ
  readabilityScore : ℚ
  sentenceStructure : FBSentenceStructure

/-- The `structure` sub-object of `speechContent` (named `structurePart`
here because `structure` is a Lean keyword). -/
structure FBStructure where
  score : ℚ
  hasIntroduction : Bool
  hasConclusion : Bool
  logicalFlow : ℚ
  cohesiveness : ℚ

structure FBSpeechContent where
  score : ℚ
  grammarAndLanguage : FBGrammar
  structurePart : FBStructure
  insights : List String

structure FBBodyLanguage where
  score : ℚ
  posture : ℚ
  gestures : ℚ
  movement : ℚ
  facialExpressions : ℚ
  eyeContact : ℚ
  insights : List String

structure FBConfidence where
  score : ℚ
  voiceModulation : ℚ
  pacing : ℚ
  presence : ℚ
  recovery : ℚ
  insights : List String

/-- The analysis object returned by `generateFallbackAnalysis`
(`routes.ts` lines 941-986). -/
structure FallbackAnalysis where
  speechContent : FBSpeechContent
  bodyLanguage : FBBodyLanguage
  confidence : FBConfidence
  overallScore : ℚ
  summary : String
  topActionItems : List String

/-- `grammarFeedback` string building (`routes.ts` lines 862-882). -/
def fallbackGrammarFeedback (wordCount : ℕ) (wpm : ℚ) (fillerCnt : ℕ) : String :=
  let base := "Your speech was analyzed with our basic analytics system."
  if wordCount < 20 then
    base ++ " Your speech was quite short, which makes detailed analysis difficult. Try speaking for at least 30 seconds for a more thorough evaluation."
  else
    let paced :=
      if wpm > 180 then
        base ++ " Your speaking pace was quite fast. Consider slowing down to improve clarity and comprehension."
      else if wpm < 100 then
        base ++ " Your speaking pace was somewhat slow. A slightly faster pace might help maintain audience engagement."
      else
        base ++ " Your speaking pace was good, making it easy for listeners to follow along."
    if fillerCnt > 5 then
      paced ++ " You used filler words like \"um\" and \"uh\" " ++ toString fillerCnt ++ " times. Reducing these would make your speech sound more polished."
    else if fillerCnt > 0 then
      paced ++ " You used a few filler words, but not enough to significantly impact your speech quality."
    else
      paced ++ " You did a great job avoiding filler words, which made your speech sound more professional."

/-- `bodyLanguageFeedback` string building (`routes.ts` lines 885-901). -/
def fallbackBodyFeedback (posture gestures : ℚ) : String :=
  let base := "Based on the video analysis"
  let p :=
    if posture > 80 then
      base ++ ", your posture was excellent, which conveys confidence and authority."
    else if posture > 60 then
      base ++ ", your posture was generally good but could be improved for a more commanding presence."
    else
      base ++ ", improving your posture would significantly enhance your speaking presence."
  if gestures > 80 then
    p ++ " Your use of gestures was natural and effective in emphasizing key points."
  else if gestures > 60 then
    p ++ " Consider using more purposeful hand gestures to emphasize important points."
  else
    p ++ " Adding more hand gestures would help engage your audience and highlight key points."

/-- `confidenceFeedback` string building (`routes.ts` lines 904-911). -/
def fallbackConfidenceFeedback (posture wpm : ℚ) : String :=
  "In terms of confidence, " ++
    (if posture > 70 ∧ wpm > 120 then
      "you presented with a good level of energy and assurance."
    else if posture > 60 ∨ wpm > 110 then
      "you showed moderate confidence, but there\x27s room for improvement."
    else
      "working on your speaking confidence would make your presentation more impactful.")

/-- The suggestion cascade (`routes.ts` lines 914-938): each satisfied
condition pushes its advice, in source order, and the closing
encouragement is always pushed last. -/
def fallbackSuggestions (wordCount : ℕ) (wpm : ℚ) (fillerCnt : ℕ)
    (posture gestures : ℚ) : List String :=
  (if wordCount < 50 then
    ["Prepare more content to expand your speaking time and develop your ideas more fully."]
  else []) ++
  (if wpm > 180 then
    ["Practice speaking more slowly to improve clarity and give listeners time to process your message."]
  else if wpm < 100 then
    ["Try increasing your speaking pace slightly to maintain audience engagement."]
  else []) ++
  (if fillerCnt > 5 then
    ["Record yourself speaking and practice reducing filler words like \"um\" and \"uh\"."]
  else []) ++
  (if posture < 70 then
    ["Practice speaking with shoulders back and spine straight to project more confidence."]
  else []) ++
  (if gestures < 70 then
    ["Incorporate more natural hand gestures to emphasize key points in your presentation."]
  else []) ++
  ["Continue practicing regularly to build confidence and speaking skills."]

/-- `generateFallbackAnalysis(transcript, duration, poseData)`
(`routes.ts` lines 818-987).  The filler rate `(fillerCount / wordCount) *
100` is division on `ℚ` (`0` when `wordCount = 0`; the source produces
`NaN` there, a case no claim touches). -/
def generateFallbackAnalysis (transcript : String) (duration : ℚ)
    (poseData : Option PoseDataIn) : FallbackAnalysis :=
  let wordCount : ℕ := (wordsOf transcript).length
  let wordsPerMinute : ℚ := (wordCount : ℚ) / (duration / 60)
  let fillerCnt : ℕ := fillerCount transcript
  let sentences := sentencesOf transcript
  let avgSentenceLength : ℚ :=
    if sentences.length > 0 then (wordCount : ℚ) / (sentences.length : ℚ) else 0
  let posture : ℚ := match poseData with | some p => jsOr p.posture 70 | none => 70
  let gestures : ℚ := match poseData with | some p => jsOr p.gestures 65 | none => 65
  let movement : ℚ := match poseData with | some p => jsOr p.movement 75 | none => 75
  let speechScore : ℚ :=
    min 100 (max 0
      (70
        + (if wordCount < 20 then -15 else if wordCount > 100 then 10 else 0)
        + (if wordsPerMinute < 100 then -5 else if wordsPerMinute > 180 then -10 else 5)
        - (fillerCnt : ℚ) * 2
        + (if 5 < avgSentenceLength ∧ avgSentenceLength < 20 then 5 else -5)))
  { speechContent :=
      { score := speechScore
        grammarAndLanguage :=
          { score := speechScore
            fillerWords :=
              { count := fillerCnt
                rate := ((fillerCnt : ℚ) / (wordCount : ℚ)) * 100 }
            vocabularyRichness := 65
            readabilityScore := 70
            sentenceStructure :=
              { averageLength := avgSentenceLength, varietyScore := 65 } }
        structurePart :=
          { score := 65
            hasIntroduction := wordCount > 30
            hasConclusion := wordCount > 50
            logicalFlow := 70
            cohesiveness := 70 }
        insights := [fallbackGrammarFeedback wordCount wordsPerMinute fillerCnt] }
    bodyLanguage :=
      { score := (posture + gestures + movement) / 3
        posture := posture
        gestures := gestures
        movement := movement
        facialExpressions := 70
        eyeContact := 75
        insights := [fallbackBodyFeedback posture gestures] }
    confidence :=
      { score := (posture + 70 + 75) / 3
        voiceModulation := 70
        pacing := if wordsPerMinute > 120 then 75 else 65
        presence := 75
        recovery := 80
        insights := [fallbackConfidenceFeedback posture wordsPerMinute] }
    overallScore :=
      speechScore * 0.4 + ((posture + gestures + movement) / 3) * 0.4 + 75 * 0.2
    summary := "Speech analysis complete. Your delivery showed some strengths and areas for improvement."
    topActionItems :=
      fallbackSuggestions wordCount wordsPerMinute fillerCnt posture gestures }

/-! ## The primary-path analysis composition
(`server/services/openai-service.ts`, `analyzeTranscript`)

The four sub-analyses (grammar service, structure, confidence and body
language) and the summary generation are external AI calls whose results
are taken here as oracle parameters; each of those calls catches its own
failures internally and resolves with a default record, so `analyzeTranscript`
receives plain values.  The deterministic part — the empty-transcript
sentinel and the weighted score composition — is embedded faithfully. -/

structure OAFillerWords where
  count : ℚ
  instances : List String
  rate : ℚ

structure OATransitionWords where
  count : ℚ
  instances : List String
  coverage : ℚ
  categories : List (String × ℚ)

structure OASentenceStructure where
  averageLength : ℚ
  complexityScore : ℚ
  varietyScore : ℚ
  pacingScore : ℚ

/-- The grammar-service result shape consumed by `analyzeTranscript`. -/
structure GrammarAnalysis where
  score : ℚ
  fillerWords : OAFillerWords
  transitionWords : OATransitionWords
  sentenceStructure : OASentenceStructure
  vocabularyRichness : ℚ
  readabilityScore : ℚ
  engagement : ℚ
  coherence : ℚ
  suggestions : List String
  advancedInsights : List String

/-- Structure-analysis result (the `insights` field is absent from the
empty-transcript sentinel's `structure` object; absence is modelled as
`[]`). -/
structure StructureAnalysis where
  score : ℚ
  hasIntroduction : Bool
  hasConclusion : Bool
  logicalFlow : ℚ
  cohesiveness : ℚ
  insights : List String

structure ConfidenceAnalysis where
  score : ℚ
  voiceModulation : ℚ
  pacing : ℚ
  presence : ℚ
  recovery : ℚ
  insights : List String

structure BodyLanguageAnalysis where
  score : ℚ
  posture : ℚ
  gestures : ℚ
  facialExpressions : ℚ
  eyeContact : ℚ
  movement : ℚ
  insights : List String

structure SummaryActionItems where
  summary : String
  actionItems : List String

structure OASpeechContent where
  score : ℚ
  grammarAndLanguage : GrammarAnalysis
  structurePart : StructureAnalysis
  insights : List String

/-- The full `SpeechAnalysisResponse` of the primary path. -/
structure SpeechAnalysisResponse where
  speechContent : OASpeechContent
  bodyLanguage : BodyLanguageAnalysis
  confidence : ConfidenceAnalysis
  overallScore : ℚ
  summary : String
  topActionItems : List String

/-- The empty-transcript sentinel (`openai-service.ts` lines 62-111). -/
def emptySpeechAnalysis : SpeechAnalysisResponse :=
  { speechContent :=
      { score := 0
        grammarAndLanguage :=
          { score := 0
            fillerWords := { count := 0, instances := [], rate := 0 }
            transitionWords :=
              { count := 0, instances := [], coverage := 0, categories := [] }
            sentenceStructure :=
              { averageLength := 0, complexityScore := 0, varietyScore := 0
                pacingScore := 0 }
            vocabularyRichness := 0
            readabilityScore := 0
            engagement := 0
            coherence := 0
            suggestions := ["No speech detected to analyze."]
            advancedInsights := [] }
        structurePart :=
          { score := 0, hasIntroduction := false, hasConclusion := false
            logicalFlow := 0, cohesiveness := 0, insights := [] }
        insights := ["No speech content to analyze."] }
    bodyLanguage :=
      { score := 0, posture := 0, gestures := 0, facialExpressions := 0
        eyeContact := 0, movement := 0
        insights := ["No body language data to analyze."] }
    confidence :=
      { score := 0, voiceModulation := 0, pacing := 0, presence := 0
        recovery := 0, insights := ["No confidence data to analyze."] }
    overallScore := 0
    summary := "No speech detected for analysis."
    topActionItems := ["Record a speech to receive analysis and feedback."] }

/-- `analyzeTranscript(transcript, duration, poseData)` with the AI
sub-analysis results as oracle parameters: on a blank transcript
(`!transcript || transcript.trim() === ""`) the sentinel is returned,
otherwise the content score and overall score are composed with the
source's weights (lines 150-188). -/
def analyzeTranscript (transcript : String) (_duration : ℚ)
    (grammarA : GrammarAnalysis) (structureA : StructureAnalysis)
    (confidenceA : ConfidenceAnalysis) (bodyA : BodyLanguageAnalysis)
    (sai : SummaryActionItems) : SpeechAnalysisResponse :=
  if (charTrim transcript.data).isEmpty then emptySpeechAnalysis
  else
    let contentScore := jsRound (grammarA.score * 0.6 + structureA.score * 0.4)
    { speechContent :=
        { score := contentScore
          grammarAndLanguage := grammarA
          structurePart := structureA
          insights := (grammarA.advancedInsights ++ structureA.insights).take 5 }
      bodyLanguage := bodyA
      confidence := confidenceA
      overallScore :=
        jsRound (contentScore * 0.4 + bodyA.score * 0.4 + confidenceA.score * 0.2)
      summary := sai.summary
      topActionItems := sai.actionItems }

/-! ## The secondary-provider sanitizer
(`server/services/gemini-service.ts`, `validateAndSanitizeAnalysis`)

The parsed provider JSON is modelled with each section optional and its
`score` optional; the numeric sub-fields *inside* a section (posture,
voiceModulation, filler rate, …) are never dereferenced by the sanitizer,
so they are carried as an opaque association list `subScores` that the
sanitizer passes through untouched. -/

structure GSection where
  score : Option ℚ
  subScores : List (String × ℚ)
  insights : List String

structure GeminiRaw where
  speechContent : Option GSection
  bodyLanguage : Option GSection
  confidence : Option GSection
  overallScore : Option ℚ
  summary : Option String
  topActionItems : Option (List String)

structure GeminiAnalysis where
  speechContent : GSection
  bodyLanguage : GSection
  confidence : GSection
  overallScore : ℚ
  summary : Option String
  topActionItems : List String

/-- `validateAndSanitizeAnalysis` (`gemini-service.ts` lines 140-197):
fill the three missing sections with score 70, recompute a falsy overall
score as the 0.4/0.4/0.2 weighted sum of the (70-defaulted) section
scores, supply the three canned action items when the list is missing or
empty, and clamp exactly the four score paths
`speechContent.score`, `bodyLanguage.score`, `confidence.score`,
`overallScore` to [0,100] (a clamp is applied only when the field holds a
number). -/
def validateAndSanitizeAnalysis (a : GeminiRaw) : GeminiAnalysis :=
  let sc := a.speechContent.getD
    ⟨some 70, [], ["Analysis generated with limited data"]⟩
  let bl := a.bodyLanguage.getD
    ⟨some 70, [], ["Body language analysis limited by available data"]⟩
  let cf := a.confidence.getD
    ⟨some 70, [], ["Confidence assessment based on limited signals"]⟩
  let computed :=
    (jsOr sc.score 70) * 0.4 + (jsOr bl.score 70) * 0.4 + (jsOr cf.score 70) * 0.2
  let overall :=
    match a.overallScore with
    | some v => if v = 0 then computed else v
    | none => computed
  let items :=
    match a.topActionItems with
    | some l =>
      if l.isEmpty then
        ["Practice regularly to build confidence and fluency",
         "Record yourself to observe and improve body language",
         "Prepare structured content with clear introduction and conclusion"]
      else l
    | none =>
      ["Practice regularly to build confidence and fluency",
       "Record yourself to observe and improve body language",
       "Prepare structured content with clear introduction and conclusion"]
  { speechContent := { sc with score := sc.score.map clampScore }
    bodyLanguage := { bl with score := bl.score.map clampScore }
    confidence := { cf with score := cf.score.map clampScore }
    overallScore := clampScore overall
    summary := a.summary
    topActionItems := items }

/-! ## The provider-fallback orchestration
(`server/routes.ts`, `POST /api/analyze-speech`, lines 736-815) -/

/-- The error shape inspected by the route's quota test
(`status`, `error?.type`, `code`, `message`). -/
structure OpenAIError where
  status : Option ℕ
  errorType : Option String
  code : Option String
  message : Option String

/-- Any failure of the secondary provider (its content is never
inspected: every secondary failure falls through to the local analyzer). -/
def GeminiError := String

/-- `needle` occurs as a substring (`String.prototype.includes`). -/
def listContains (pat : List Char) : List Char → Bool
  | [] => pat.isEmpty
  | c :: rest => pat.isPrefixOf (c :: rest) || listContains pat rest

/-- The quota / rate-limit classification (`routes.ts` lines 770-774). -/
def isRateLimitOrQuotaError (e : OpenAIError) : Bool :=
  e.status == some 429 ||
  e.errorType == some "insufficient_quota" ||
  e.code == some "insufficient_quota" ||
  (match e.message with
   | some m => listContains "quota".data m.data
   | none => false)

/-- The analysis payload of a successful response, tagged by the branch
that produced it. -/
inductive AnalysisPayload where
  | openai (a : SpeechAnalysisResponse)
  | gemini (g : GeminiAnalysis)
  | fallback (f : FallbackAnalysis)

/-- The JSON response of the route: HTTP status, `success` flag,
`provider` tag and `analysis` body (error responses carry neither). -/
structure ApiResponse where
  status : ℕ
  success : Bool
  provider : Option String
  analysis : Option AnalysisPayload

/-- The `POST /api/analyze-speech` handler.  The primary call
(`analyzeTranscript`) and the secondary call
(`analyzeTranscriptWithGemini`, post-sanitization) are external
interactions whose outcomes enter as `Except` parameters; the branching
on them is the route's (lines 756-806): primary success → 200/"openai";
primary failure classified as quota → secondary; secondary success →
200/"gemini"; secondary failure → 200/"fallback" with the local
`generateFallbackAnalysis` result; primary failure not classified as
quota → rethrown to the outer catch → 500. -/
def analyzeSpeechRoute (transcript : String) (duration : ℚ)
    (poseData : Option PoseDataIn)
    (primary : Except OpenAIError SpeechAnalysisResponse)
    (secondary : Except GeminiError GeminiAnalysis) : ApiResponse :=
  if transcript = "" then ⟨400, false, none, none⟩
  else if duration = 0 ∨ duration ≤ 0 then ⟨400, false, none, none⟩
  else
    match primary with
    | .ok a => ⟨200, true, some "openai", some (.openai a)⟩
    | .error e =>
      if isRateLimitOrQuotaError e then
        match secondary with
        | .ok g => ⟨200, true, some "gemini", some (.gemini g)⟩
        | .error _ =>
          ⟨200, true, some "fallback",
            some (.fallback (generateFallbackAnalysis transcript duration poseData))⟩
      else ⟨500, false, none, none⟩

/-! ## The delivery analyzer
(`server/services/speech/whisper-service.ts`, `analyzeDelivery`) -/

/-- A Whisper transcription segment (`end` is a Lean keyword; the field
is named `endTime`). -/
structure Segment where
  text : String
  start : ℚ
  endTime : ℚ

/-- On an empty segment list the source returns only
`{pace: 0, clarity: 0, variability: 0}`; the absent `wpm`/`pauses`
fields are modelled as `none`. -/
structure DeliveryAnalysis where
  pace : ℚ
  clarity : ℚ
  variability : ℚ
  wpm : Option ℚ
  pauses : Option ℕ

/-- Words of one segment: `segment.text.split(/\s+/).filter(w => w.trim() !== '').length`. -/
def segWords (s : Segment) : ℕ := (wordsOf s.text).length

def totalWords (segs : List Segment) : ℕ := (segs.map segWords).sum

def totalDuration (segs : List Segment) : ℚ :=
  (segs.map (fun s => s.endTime - s.start)).sum

/-- The per-segment average word durations that are `> 0` (the loop
pushes `segmentDuration / words` when positive). -/
def wordDurations (segs : List Segment) : List ℚ :=
  segs.filterMap (fun s =>
    let w := segWords s
    let avg := if w > 0 then (s.endTime - s.start) / (w : ℚ) else 0
    if avg > 0 then some avg else none)

/-- Pauses: adjacent segment gaps `> 0.5` seconds. -/
def countPauses : List Segment → ℕ
  | a :: b :: rest => (if b.start - a.endTime > 0.5 then 1 else 0) + countPauses (b :: rest)
  | _ => 0

/-- The variability classification.  The source computes
`variabilityFactor = (Math.sqrt(variance) / avg) * 100` and compares it
with 10, 25 and 50; every sample is positive so `avg > 0`, and comparing
the squares (`variance·100²` against `10²·avg²`, `25²·avg²`, `50²·avg²`)
is equivalent and keeps the definition inside `ℚ`. -/
def variabilityScore (l : List ℚ) : ℚ :=
  let n : ℚ := (l.length : ℚ)
  let avg := l.sum / n
  let variance := (l.map (fun v => (v - avg) ^ 2)).sum / n
  if variance * 10000 < 100 * avg ^ 2 then 50
  else if variance * 10000 < 625 * avg ^ 2 then 70
  else if variance * 10000 < 2500 * avg ^ 2 then 90
  else 75

/-- `analyzeDelivery(segments)` (`whisper-service.ts` lines 62-138). -/
def analyzeDelivery (segments : List Segment) : DeliveryAnalysis :=
  if segments.isEmpty then ⟨0, 0, 0, none, none⟩
  else
    let tw := totalWords segments
    let td := totalDuration segments
    let wpm := (tw : ℚ) / (td / 60)
    let pace : ℚ :=
      if wpm < 80 then 40
      else if wpm < 120 then 60
      else if wpm < 190 then 90
      else 70
    let wd := wordDurations segments
    let variability := if wd.length > 5 then variabilityScore wd else 0
    ⟨pace, 85, variability, some wpm, some (countPauses segments)⟩

/-! ## The body-language metrics estimator's rolling buffers
(client `Posedetector` component, `detectPose` maintenance loop)

Per processed animation frame the source increments `frameCount`; when a
pose with `score > 0.2` was detected it is pushed onto `poseHistory`
(capped at 90 by `shift()`), and each named keypoint's `x`/`y`/`score`
are pushed onto its per-keypoint history (capped at 30), with wrist
keypoints additionally feeding the gesture detector.  The mutable
`metricsRef` record is modelled as an explicit state threaded through a
fold over the frames. -/

structure Keypoint where
  name : Option String
  x : ℚ
  y : ℚ
  score : Option ℚ

structure Pose where
  score : Option ℚ
  keypoints : List Keypoint

structure KpHist where
  x : List ℚ
  y : List ℚ
  score : List ℚ

structure MetricsState where
  frameCount : ℕ
  validPoseCount : ℕ
  poseHistory : List Pose
  keypointHistory : String → Option KpHist
  lastPositions : String → Option (ℚ × ℚ × ℚ)
  gestureCount : ℕ

def initialMetricsState : MetricsState :=
  ⟨0, 0, [], fun _ => none, fun _ => none, 0⟩

/-- Append one sample to a keypoint history and cap it at 30 entries
(`push` then, when `history.x.length > 30`, one `shift()` on each of the
three arrays). -/
def pushCapped30 (h : KpHist) (x y sc : ℚ) : KpHist :=
  let h1 : KpHist := ⟨h.x ++ [x], h.y ++ [y], h.score ++ [sc]⟩
  if h1.x.length > 30 then ⟨h1.x.drop 1, h1.y.drop 1, h1.score.drop 1⟩ else h1

/-- The body of `pose.keypoints.forEach(...)` for one keypoint: skip
unnamed keypoints, append to the keypoint's history and cap it at 30,
then run the wrist gesture detector (`distance > canvas.width * 0.05`
with `distance = Math.sqrt(dx² + dy²)`, compared here by squares, which
is equivalent for a non-negative canvas width). -/
def trackKeypoint (canvasWidth : ℚ) (st : MetricsState) (kp : Keypoint) :
    MetricsState :=
  match kp.name with
  | none => st
  | some n =>
    if n = "" then st
    else
      let h := (st.keypointHistory n).getD ⟨[], [], []⟩
      let h2 : KpHist := pushCapped30 h kp.x kp.y (kp.score.getD 0)
      let st1 : MetricsState :=
        { st with keypointHistory := fun m => if m = n then some h2 else st.keypointHistory m }
      if (n == "left_wrist" || n == "right_wrist") &&
          (match kp.score with | some sc => decide (sc > 0.5) | none => false) then
        let st2 :=
          match st1.lastPositions n with
          | some (lx, ly, _) =>
            if (kp.x - lx) ^ 2 + (kp.y - ly) ^ 2 > (canvasWidth * 0.05) ^ 2 then
              { st1 with gestureCount := st1.gestureCount + 1 }
            else st1
          | none => st1
        { st2 with
          lastPositions := fun m =>
            if m = n then some (kp.x, kp.y, kp.score.getD 0) else st2.lastPositions m }
      else st1

/-- One pass of the `detectPose` loop past the readiness check: the frame
counter always advances; a detected pose with `score > 0.2` is recorded
into the histories.  A frame carries the canvas width (set from the video
each iteration) and the detected pose, if any. -/
def processFrame (st : MetricsState) (frame : ℚ × Option Pose) : MetricsState :=
  let st0 : MetricsState := { st with frameCount := st.frameCount + 1 }
  match frame.2 with
  | none => st0
  | some pose =>
    if (match pose.score with | some s => decide (s > 0.2) | none => false) then
      let st1 : MetricsState := { st0 with validPoseCount := st0.validPoseCount + 1 }
      let ph := st1.poseHistory ++ [pose]
      let ph2 := if ph.length > 90 then ph.drop 1 else ph
      let st2 : MetricsState := { st1 with poseHistory := ph2 }
      pose.keypoints.foldl (trackKeypoint frame.1) st2
    else st0

/-- Run the detection loop over a sequence of frames. -/
def runFrames (frames : List (ℚ × Option Pose)) : MetricsState :=
  frames.foldl processFrame initialMetricsState

/-- The rolling-buffer caps maintained by `detectPose`: at most 90 poses,
and for every named keypoint at most 30 history entries with the three
coordinate arrays in lockstep. -/
def MetricsInv (st : MetricsState) : Prop :=
  st.poseHistory.length ≤ 90 ∧
  ∀ n h, st.keypointHistory n = some h →
    h.x.length ≤ 30 ∧ h.y.length = h.x.length ∧ h.score.length = h.x.length

/-! ## Transcripts as sentence sequences (for the sentence-permutation
property of filler counting)

A transcript's sentences are the pieces between `.`/`!`/`?` boundaries.
Rendering a sentence list back into transcript text joins consecutive
sentences with a sentence boundary (period followed by a space);
permuting the sentence order of a transcript is permuting the list
below.  The filler regexes contain only letters and an inner space, so a
match can never span the `". "` boundary, which is what makes the count
distribute over sentences. -/

def renderChars : List (List Char) → List Char
  | [] => []
  | [s] => s
  | s :: rest => s ++ '.' :: ' ' :: renderChars rest

/-- A pattern that cannot interfere with the `". "` sentence boundary:
no character of it case-matches `'.'`, and it does not start with a
space.  Every filler phrase satisfies this. -/
def SepSafePat : List Char → Bool
  | [] => true
  | p :: ps => ((p :: ps).all fun c => !ciEq c '.') && !ciEq p ' '

/-! ## Concrete oracle values used to instantiate hypotheses
(sample results standing for AI sub-analysis responses) -/

def sampleGrammar : GrammarAnalysis :=
  { score := 80
    fillerWords := { count := 2, instances := ["um"], rate := 0.04 }
    transitionWords :=
      { count := 1, instances := ["however"], coverage := 0.2
        categories := [("contrast", 1)] }
    sentenceStructure :=
      { averageLength := 12, complexityScore := 40, varietyScore := 55
        pacingScore := 50 }
    vocabularyRichness := 60
    readabilityScore := 70
    engagement := 65
    coherence := 72
    suggestions := ["Vary your sentence openings."]
    advancedInsights := ["Clear main argument."] }

def sampleStructure : StructureAnalysis :=
  { score := 50, hasIntroduction := true, hasConclusion := false
    logicalFlow := 60, cohesiveness := 55, insights := ["Add a conclusion."] }

def sampleConfidence : ConfidenceAnalysis :=
  { score := 60, voiceModulation := 55, pacing := 65, presence := 60
    recovery := 70, insights := ["Project more authority."] }

def sampleBody : BodyLanguageAnalysis :=
  { score := 70, posture := 75, gestures := 65, facialExpressions := 70
    eyeContact := 72, movement := 68, insights := ["Good posture overall."] }

def sampleSummary : SummaryActionItems :=
  { summary := "Solid delivery with room to grow."
    actionItems := ["Practice transitions.", "Slow down slightly."] }

/-! # Theorems -/

/-! ## General lemmas -/

theorem clampScore_nonneg (q : ℚ) : 0 ≤ clampScore q := le_max_left 0 _

theorem clampScore_le_100 (q : ℚ) : clampScore q ≤ 100 := by
  unfold clampScore
  rcases le_total 0 (min 100 q) with h | h
  · rw [max_eq_right h]; exact min_le_left _ _
  · rw [max_eq_left h]; norm_num

theorem scanGo_fuel (p : Char) (ps : List Char) :
    ∀ (f g : ℕ) (prev : Option Char) (s : List Char),
      s.length ≤ f → s.length ≤ g →
      scanGo p ps f prev s = scanGo p ps g prev s := by
  intro f
  induction f with
  | zero =>
    intro g prev s hf _
    have : s = [] := List.eq_nil_of_length_eq_zero (Nat.le_zero.mp hf)
    subst this
    cases g <;> rfl
  | succ f ih =>
    intro g prev s hf hg
    cases s with
    | nil => cases g <;> rfl
    | cons c rest =>
      cases g with
      | zero => simp at hg
      | succ g =>
        simp only [scanGo]
        split
        · have hlen : ((c :: rest).drop (ps.length + 1)).length ≤ f := by
            simp only [List.length_drop, List.length_cons]
            simp only [List.length_cons] at hf
            omega
          have hlen' : ((c :: rest).drop (ps.length + 1)).length ≤ g := by
            simp only [List.length_drop, List.length_cons]
            simp only [List.length_cons] at hg
            omega
          rw [ih g _ _ hlen hlen']
        · have hlen : rest.length ≤ f := by
            simp only [List.length_cons] at hf; omega
          have hlen' : rest.length ≤ g := by
            simp only [List.length_cons] at hg; omega
          rw [ih g _ _ hlen hlen']

/-- Unfolding equation of `scanAux` on a non-empty list. -/
theorem scanAux_cons (p c : Char) (ps rest : List Char) (prev : Option Char) :
    scanAux p ps prev (c :: rest) =
      if boundaryOk prev && ciPrefix (p :: ps) (c :: rest) &&
          boundaryOk ((c :: rest).drop (ps.length + 1)).head? then
        1 + scanAux p ps (((c :: rest).take (ps.length + 1)).getLastD c)
              ((c :: rest).drop (ps.length + 1))
      else
        scanAux p ps (some c) rest := by
  show scanGo p ps (rest.length + 1) prev (c :: rest) = _
  simp only [scanGo]
  split
  · rw [scanGo_fuel p ps rest.length _ _ _
      (by simp only [List.length_drop, List.length_cons]; omega) le_rfl]
    rfl
  · rfl

theorem scanAux_nil (p : Char) (ps : List Char) (prev : Option Char) :
    scanAux p ps prev [] = 0 := rfl

/-- Evaluation rule for `jsRound` at concrete rationals. -/
theorem jsRound_eval (z : ℤ) {q r : ℚ} (hz : (z : ℚ) = r)
    (h1 : (z : ℚ) ≤ q + 1/2) (h2 : q + 1/2 < (z : ℚ) + 1) : jsRound q = r := by
  have hfl : ⌊q + 1/2⌋ = z := Int.floor_eq_iff.mpr ⟨h1, by linarith⟩
  rw [jsRound, hfl, hz]

/-! ## C1: provider-fallback orchestration of `POST /api/analyze-speech` -/

/-- C1.  For every request with a valid (non-empty string) transcript and
positive duration: when the primary provider call fails with an error
classified as a quota/rate-limit error (status 429 or a
provider-reported insufficient-quota code/type or a "quota" message),
the secondary provider's success is returned as HTTP 200 tagged
"gemini", and a secondary failure yields HTTP 200 tagged "fallback"
carrying exactly the deterministic local analysis (no exception
escapes); when the primary error is not a quota/rate-limit error, no
fallback is attempted and the response is HTTP 500. -/
theorem analyzeSpeech_provider_fallback
    (t : String) (d : ℚ) (p : Option PoseDataIn)
    (ht : t ≠ "") (hd : 0 < d)
    (e : OpenAIError) (secondary : Except GeminiError GeminiAnalysis) :
    (isRateLimitOrQuotaError e = true →
      (∀ g, secondary = .ok g →
        analyzeSpeechRoute t d p (.error e) secondary =
          ⟨200, true, some "gemini", some (.gemini g)⟩) ∧
      (∀ ge, secondary = .error ge →
        analyzeSpeechRoute t d p (.error e) secondary =
          ⟨200, true, some "fallback",
            some (.fallback (generateFallbackAnalysis t d p))⟩)) ∧
    (isRateLimitOrQuotaError e = false →
      analyzeSpeechRoute t d p (.error e) secondary =
        ⟨500, false, none, none⟩) := by
  have hdur : ¬(d = 0 ∨ d ≤ 0) := by
    push_neg
    exact ⟨hd.ne', hd⟩
  unfold analyzeSpeechRoute
  rw [if_neg ht, if_neg hdur]
  refine ⟨fun hq => ⟨fun g hsec => ?_, fun ge hsec => ?_⟩, fun hnq => ?_⟩
  · subst hsec; simp [hq]
  · subst hsec; simp [hq]
  · simp [hnq]

/-- Witness for C1: a concrete 429 error and failing secondary produce
the tagged local fallback analysis. -/
theorem analyzeSpeech_provider_fallback_witness :
    ("hi" : String) ≠ "" ∧ (0 : ℚ) < 1 ∧
    isRateLimitOrQuotaError ⟨some 429, none, none, none⟩ = true ∧
    analyzeSpeechRoute "hi" 1 none (.error ⟨some 429, none, none, none⟩)
        (.error "secondary failed") =
      ⟨200, true, some "fallback",
        some (.fallback (generateFallbackAnalysis "hi" 1 none))⟩ :=
  ⟨by decide, by norm_num, by decide,
    ((analyzeSpeech_provider_fallback "hi" 1 none (by decide) (by norm_num)
        ⟨some 429, none, none, none⟩ (.error "secondary failed")).1
      (by decide)).2 "secondary failed" rfl⟩

/-! ## C2: range of scores in pipeline results -/

/-- C2 fails as stated: the pipeline's fallback branch (reached for a
non-empty transcript when the primary fails with a quota error and the
secondary also fails) copies the client-supplied pose sub-scores into the
analysis unclamped, so `bodyLanguage.posture` can be 150.  The
sanitization step clamps only the three section scores and the overall
score, not every numeric sub-score. -/
theorem scores_in_range_counterexample :
    analyzeSpeechRoute "so um yeah" 60 (some ⟨some 150, none, none⟩)
        (.error ⟨some 429, none, none, none⟩) (.error "fail") =
      ⟨200, true, some "fallback",
        some (.fallback (generateFallbackAnalysis "so um yeah" 60
          (some ⟨some 150, none, none⟩)))⟩ ∧
    (generateFallbackAnalysis "so um yeah" 60
        (some ⟨some 150, none, none⟩)).bodyLanguage.posture = 150 ∧
    ¬((generateFallbackAnalysis "so um yeah" 60
        (some ⟨some 150, none, none⟩)).bodyLanguage.posture ≤ 100) := by
  refine ⟨?_, ?_, ?_⟩
  · unfold analyzeSpeechRoute
    rw [if_neg (by decide : ¬("so um yeah" : String) = ""),
      if_neg (by norm_num : ¬((60 : ℚ) = 0 ∨ (60 : ℚ) ≤ 0))]
    simp [isRateLimitOrQuotaError]
  · simp only [generateFallbackAnalysis, jsOr]
    norm_num
  · simp only [generateFallbackAnalysis, jsOr]
    norm_num

/-- C2 amended: the sanitizer fills a missing section with the neutral
default score 70, clamps the three section scores (when present as
numbers) and the overall score to [0,100], and guarantees a non-empty
action-item list — but deeper numeric sub-scores pass through untouched
and are not clamped. -/
theorem sanitize_clamps_top_scores (a : GeminiRaw) :
    (0 ≤ (validateAndSanitizeAnalysis a).overallScore ∧
      (validateAndSanitizeAnalysis a).overallScore ≤ 100) ∧
    (∀ q, (validateAndSanitizeAnalysis a).speechContent.score = some q →
      0 ≤ q ∧ q ≤ 100) ∧
    (∀ q, (validateAndSanitizeAnalysis a).bodyLanguage.score = some q →
      0 ≤ q ∧ q ≤ 100) ∧
    (∀ q, (validateAndSanitizeAnalysis a).confidence.score = some q →
      0 ≤ q ∧ q ≤ 100) ∧
    (validateAndSanitizeAnalysis a).topActionItems ≠ [] ∧
    (a.speechContent = none →
      (validateAndSanitizeAnalysis a).speechContent.score = some 70) ∧
    (∀ sec, a.speechContent = some sec →
      (validateAndSanitizeAnalysis a).speechContent.subScores = sec.subScores) := by
  refine ⟨⟨clampScore_nonneg _, clampScore_le_100 _⟩, ?_, ?_, ?_, ?_, ?_, ?_⟩
  · intro q hq
    simp only [validateAndSanitizeAnalysis, Option.map_eq_some'] at hq
    obtain ⟨x, _, rfl⟩ := hq
    exact ⟨clampScore_nonneg x, clampScore_le_100 x⟩
  · intro q hq
    simp only [validateAndSanitizeAnalysis, Option.map_eq_some'] at hq
    obtain ⟨x, _, rfl⟩ := hq
    exact ⟨clampScore_nonneg x, clampScore_le_100 x⟩
  · intro q hq
    simp only [validateAndSanitizeAnalysis, Option.map_eq_some'] at hq
    obtain ⟨x, _, rfl⟩ := hq
    exact ⟨clampScore_nonneg x, clampScore_le_100 x⟩
  · simp only [validateAndSanitizeAnalysis]
    cases a.topActionItems with
    | none => simp
    | some l =>
      by_cases hl : l.isEmpty
      · simp [hl]
      · simp only [hl, if_false]
        simpa using hl
  · intro h
    simp only [validateAndSanitizeAnalysis, h, Option.getD_none, Option.map_some']
    norm_num [clampScore]
  · intro sec h
    simp [validateAndSanitizeAnalysis, h]

/-- Witness for C2's amended theorem at a concrete raw analysis with an
out-of-range section score and an unclamped deep sub-score. -/
theorem sanitize_clamps_top_scores_witness :
    (validateAndSanitizeAnalysis
        ⟨some ⟨some 150, [("posture", 150)], []⟩, none, none, some 0, none,
          some []⟩).topActionItems ≠ [] ∧
    0 ≤ (validateAndSanitizeAnalysis
        ⟨some ⟨some 150, [("posture", 150)], []⟩, none, none, some 0, none,
          some []⟩).overallScore :=
  ⟨(sanitize_clamps_top_scores
      ⟨some ⟨some 150, [("posture", 150)], []⟩, none, none, some 0, none,
        some []⟩).2.2.2.2.1,
    (sanitize_clamps_top_scores
      ⟨some ⟨some 150, [("posture", 150)], []⟩, none, none, some 0, none,
        some []⟩).1.1⟩

/-! ## C3: overall = round(Content·0.4 + BodyLanguage·0.4 + Confidence·0.2) -/

/-- C3 fails as stated on the fallback path: for the transcript
"hello world" with duration 60 and no pose data, the produced overall
score is 61, while rounding the weighted sum of the reported Content,
BodyLanguage and Confidence sub-scores gives 60 (the source uses the
constant 75 — not the reported confidence score (70+70+75)/3 — and does
not round). -/
theorem overall_formula_counterexample :
    (generateFallbackAnalysis "hello world" 60 none).overallScore = 61 ∧
    jsRound ((generateFallbackAnalysis "hello world" 60 none).speechContent.score * 0.4 +
        (generateFallbackAnalysis "hello world" 60 none).bodyLanguage.score * 0.4 +
        (generateFallbackAnalysis "hello world" 60 none).confidence.score * 0.2) = 60 ∧
    (generateFallbackAnalysis "hello world" 60 none).overallScore ≠
      jsRound ((generateFallbackAnalysis "hello world" 60 none).speechContent.score * 0.4 +
        (generateFallbackAnalysis "hello world" 60 none).bodyLanguage.score * 0.4 +
        (generateFallbackAnalysis "hello world" 60 none).confidence.score * 0.2) := by
  have h1 : wordsOf "hello world" = [['h','e','l','l','o'], ['w','o','r','l','d']] := by
    decide
  have h2 : fillerCount "hello world" = 0 := by decide
  have h3 : sentencesOf "hello world" = [['h','e','l','l','o',' ','w','o','r','l','d']] := by
    decide
  have hval : (generateFallbackAnalysis "hello world" 60 none).overallScore = 61 := by
    simp only [generateFallbackAnalysis, h1, h2, h3, jsOr]
    norm_num
  have hround :
      jsRound ((generateFallbackAnalysis "hello world" 60 none).speechContent.score * 0.4 +
        (generateFallbackAnalysis "hello world" 60 none).bodyLanguage.score * 0.4 +
        (generateFallbackAnalysis "hello world" 60 none).confidence.score * 0.2) = 60 := by
    simp only [generateFallbackAnalysis, h1, h2, h3, jsOr]
    norm_num
    exact jsRound_eval 60 (by norm_num) (by norm_num) (by norm_num)
  exact ⟨hval, hround, by rw [hval, hround]; norm_num⟩

/-- C3 amended: the primary path composes
`Overall = round(Content·0.4 + BodyLanguage·0.4 + Confidence·0.2)`
(and Content=80, BodyLanguage=70, Confidence=60 gives 72); the fallback
path instead computes `speechScore·0.4 + bodyAvg·0.4 + 75·0.2` with no
rounding and with the constant 75 in place of the reported confidence
score. -/
theorem overall_weighted_composition :
    (∀ (t : String) (d : ℚ) (gA : GrammarAnalysis) (sA : StructureAnalysis)
        (cA : ConfidenceAnalysis) (bA : BodyLanguageAnalysis)
        (sai : SummaryActionItems),
      (charTrim t.data).isEmpty = false →
      (analyzeTranscript t d gA sA cA bA sai).overallScore =
        jsRound ((analyzeTranscript t d gA sA cA bA sai).speechContent.score * 0.4 +
          (analyzeTranscript t d gA sA cA bA sai).bodyLanguage.score * 0.4 +
          (analyzeTranscript t d gA sA cA bA sai).confidence.score * 0.2)) ∧
    (∀ (t : String) (d : ℚ) (p : Option PoseDataIn),
      (generateFallbackAnalysis t d p).overallScore =
        (generateFallbackAnalysis t d p).speechContent.score * 0.4 +
          (generateFallbackAnalysis t d p).bodyLanguage.score * 0.4 + 75 * 0.2) ∧
    jsRound ((80 : ℚ) * 0.4 + 70 * 0.4 + 60 * 0.2) = 72 := by
  refine ⟨fun t d gA sA cA bA sai h => ?_, fun t d p => ?_, ?_⟩
  · simp only [analyzeTranscript, h, Bool.false_eq_true, if_false]
  · simp only [generateFallbackAnalysis]
  · exact jsRound_eval 72 (by norm_num) (by norm_num) (by norm_num)

/-- Witness for C3's amended theorem on a concrete non-blank transcript
and concrete sub-analysis results. -/
theorem overall_weighted_composition_witness :
    (charTrim "hello".data).isEmpty = false ∧
    (analyzeTranscript "hello" 60 sampleGrammar sampleStructure
        sampleConfidence sampleBody sampleSummary).overallScore =
      jsRound ((analyzeTranscript "hello" 60 sampleGrammar sampleStructure
          sampleConfidence sampleBody sampleSummary).speechContent.score * 0.4 +
        (analyzeTranscript "hello" 60 sampleGrammar sampleStructure
          sampleConfidence sampleBody sampleSummary).bodyLanguage.score * 0.4 +
        (analyzeTranscript "hello" 60 sampleGrammar sampleStructure
          sampleConfidence sampleBody sampleSummary).confidence.score * 0.2) :=
  ⟨by decide,
    overall_weighted_composition.1 "hello" 60 sampleGrammar sampleStructure
      sampleConfidence sampleBody sampleSummary (by decide)⟩

/-! ## C4: Content = round(Language·0.6 + Structure·0.4) -/

/-- C4 fails as stated on the fallback path: for "hello world" with
duration 60, the produced Content score is 45 (the heuristic speech
score reused directly), while rounding the weighted combination of the
reported grammar/language score (45) and structure score (65) gives
53. -/
theorem content_formula_counterexample :
    (generateFallbackAnalysis "hello world" 60 none).speechContent.score = 45 ∧
    jsRound ((generateFallbackAnalysis "hello world" 60 none).speechContent.grammarAndLanguage.score * 0.6 +
        (generateFallbackAnalysis "hello world" 60 none).speechContent.structurePart.score * 0.4) = 53 ∧
    (generateFallbackAnalysis "hello world" 60 none).speechContent.score ≠
      jsRound ((generateFallbackAnalysis "hello world" 60 none).speechContent.grammarAndLanguage.score * 0.6 +
        (generateFallbackAnalysis "hello world" 60 none).speechContent.structurePart.score * 0.4) := by
  have h1 : wordsOf "hello world" = [['h','e','l','l','o'], ['w','o','r','l','d']] := by
    decide
  have h2 : fillerCount "hello world" = 0 := by decide
  have h3 : sentencesOf "hello world" = [['h','e','l','l','o',' ','w','o','r','l','d']] := by
    decide
  have hval : (generateFallbackAnalysis "hello world" 60 none).speechContent.score = 45 := by
    simp only [generateFallbackAnalysis, h1, h2, h3, jsOr]
    norm_num
  have hround :
      jsRound ((generateFallbackAnalysis "hello world" 60 none).speechContent.grammarAndLanguage.score * 0.6 +
        (generateFallbackAnalysis "hello world" 60 none).speechContent.structurePart.score * 0.4) = 53 := by
    simp only [generateFallbackAnalysis, h1, h2, h3, jsOr]
    norm_num
    exact jsRound_eval 53 (by norm_num) (by norm_num) (by norm_num)
  exact ⟨hval, hround, by rw [hval, hround]; norm_num⟩

/-- C4 amended: the primary path composes
`Content = round(Language·0.6 + Structure·0.4)` (and Language=90,
Structure=50 gives 74); the fallback path instead reports the heuristic
speech score directly as the Content score (equal to its
grammar-and-language score) with the constant 65 as structure score. -/
theorem content_weighted_composition :
    (∀ (t : String) (d : ℚ) (gA : GrammarAnalysis) (sA : StructureAnalysis)
        (cA : ConfidenceAnalysis) (bA : BodyLanguageAnalysis)
        (sai : SummaryActionItems),
      (charTrim t.data).isEmpty = false →
      (analyzeTranscript t d gA sA cA bA sai).speechContent.score =
        jsRound (gA.score * 0.6 + sA.score * 0.4)) ∧
    (∀ (t : String) (d : ℚ) (p : Option PoseDataIn),
      (generateFallbackAnalysis t d p).speechContent.score =
        (generateFallbackAnalysis t d p).speechContent.grammarAndLanguage.score ∧
      (generateFallbackAnalysis t d p).speechContent.structurePart.score = 65) ∧
    jsRound ((90 : ℚ) * 0.6 + 50 * 0.4) = 74 := by
  refine ⟨fun t d gA sA cA bA sai h => ?_, fun t d p => ⟨?_, ?_⟩, ?_⟩
  · simp only [analyzeTranscript, h, Bool.false_eq_true, if_false]
  · simp only [generateFallbackAnalysis]
  · simp only [generateFallbackAnalysis]
  · exact jsRound_eval 74 (by norm_num) (by norm_num) (by norm_num)

/-- Witness for C4's amended theorem on a concrete non-blank transcript
and concrete sub-analysis results. -/
theorem content_weighted_composition_witness :
    (charTrim "okay then".data).isEmpty = false ∧
    (analyzeTranscript "okay then" 30 sampleGrammar sampleStructure
        sampleConfidence sampleBody sampleSummary).speechContent.score =
      jsRound (sampleGrammar.score * 0.6 + sampleStructure.score * 0.4) :=
  ⟨by decide,
    content_weighted_composition.1 "okay then" 30 sampleGrammar sampleStructure
      sampleConfidence sampleBody sampleSummary (by decide)⟩

/-! ## C5: the empty-transcript sentinel -/

/-- C5.  For every empty or whitespace-only transcript — whatever the
duration, pose data, or AI sub-analysis results — `analyzeTranscript`
returns the canned sentinel: Content score 0, Overall score 0, exactly
one "No speech detected to analyze." suggestion and exactly one
"No speech content to analyze." content insight (the whole result is the
fixed `emptySpeechAnalysis`). -/
theorem empty_transcript_sentinel (t : String) (d : ℚ)
    (gA : GrammarAnalysis) (sA : StructureAnalysis) (cA : ConfidenceAnalysis)
    (bA : BodyLanguageAnalysis) (sai : SummaryActionItems)
    (h : (charTrim t.data).isEmpty = true) :
    (analyzeTranscript t d gA sA cA bA sai).speechContent.score = 0 ∧
    (analyzeTranscript t d gA sA cA bA sai).overallScore = 0 ∧
    (analyzeTranscript t d gA sA cA bA sai).speechContent.grammarAndLanguage.suggestions =
      ["No speech detected to analyze."] ∧
    (analyzeTranscript t d gA sA cA bA sai).speechContent.insights =
      ["No speech content to analyze."] ∧
    analyzeTranscript t d gA sA cA bA sai = emptySpeechAnalysis := by
  have hres : analyzeTranscript t d gA sA cA bA sai = emptySpeechAnalysis := by
    simp only [analyzeTranscript, h, if_true]
  refine ⟨?_, ?_, ?_, ?_, hres⟩ <;> rw [hres] <;> rfl

/-- Witness for C5 at a whitespace-only transcript with arbitrary
concrete duration and oracle results. -/
theorem empty_transcript_sentinel_witness :
    (charTrim ("   " : String).data).isEmpty = true ∧
    (analyzeTranscript "   " 42 sampleGrammar sampleStructure sampleConfidence
        sampleBody sampleSummary).overallScore = 0 :=
  ⟨by decide,
    (empty_transcript_sentinel "   " 42 sampleGrammar sampleStructure
      sampleConfidence sampleBody sampleSummary (by decide)).2.1⟩

/-! ## C6: the action-item cascade -/

/-- C6 fails as stated: a short, slow, filler-heavy transcript with weak
posture and gestures triggers every cascade branch, producing six action
items — the claimed cap of 5 is not enforced (and the closing
encouragement is appended unconditionally, not only "if space
remains"). -/
theorem action_items_cap_counterexample :
    (generateFallbackAnalysis "um um um um um um" 60
        (some ⟨some 60, some 60, none⟩)).topActionItems.length = 6 := by
  have h1 : (wordsOf "um um um um um um").length = 6 := by decide
  have h2 : fillerCount "um um um um um um" = 6 := by decide
  simp only [generateFallbackAnalysis, h1, h2, jsOr, fallbackSuggestions]
  norm_num

/-- C6 amended: the fallback's action items follow the fixed priority
cascade (short-transcript advice, then pacing, filler, posture, gesture
advice) with the generic closing encouragement always appended last; the
list is never empty and contains at most 6 entries (no 5-entry cap). -/
theorem action_items_cascade (t : String) (d : ℚ) (p : Option PoseDataIn) :
    (generateFallbackAnalysis t d p).topActionItems.length ≤ 6 ∧
    (generateFallbackAnalysis t d p).topActionItems ≠ [] ∧
    (generateFallbackAnalysis t d p).topActionItems.getLast? =
      some "Continue practicing regularly to build confidence and speaking skills." := by
  have hlen : ∀ (wc : ℕ) (wpm : ℚ) (fc : ℕ) (po ge : ℚ),
      (fallbackSuggestions wc wpm fc po ge).length ≤ 6 := by
    intro wc wpm fc po ge
    unfold fallbackSuggestions
    split <;> split <;> split <;> split <;> split <;> (try split) <;> simp
  have hlast : ∀ (wc : ℕ) (wpm : ℚ) (fc : ℕ) (po ge : ℚ),
      (fallbackSuggestions wc wpm fc po ge).getLast? =
        some "Continue practicing regularly to build confidence and speaking skills." := by
    intro wc wpm fc po ge
    unfold fallbackSuggestions
    rw [List.getLast?_append]
    rfl
  refine ⟨?_, ?_, ?_⟩
  · exact hlen _ _ _ _ _
  · have h := hlast ((wordsOf t).length)
      ((((wordsOf t).length : ℚ)) / (d / 60)) (fillerCount t)
      (match p with | some pd => jsOr pd.posture 70 | none => 70)
      (match p with | some pd => jsOr pd.gestures 65 | none => 65)
    intro hnil
    simp only [generateFallbackAnalysis] at hnil
    rw [hnil] at h
    simp at h
  · exact hlast _ _ _ _ _

/-! ## C7: delivery pace classification -/

/-- C7.  For every non-empty segment list with positive total duration
(the domain on which rational and JavaScript division agree),
`analyzeDelivery` reports `wpm = totalWords / (totalDuration / 60)` and
classifies pace by exactly the bands <80 → 40, <120 → 60, <190 → 90,
else 70. -/
theorem pace_classification (segs : List Segment) (h : segs ≠ [])
    (hd : 0 < totalDuration segs) :
    (analyzeDelivery segs).wpm =
      some ((totalWords segs : ℚ) / (totalDuration segs / 60)) ∧
    (analyzeDelivery segs).pace =
      (if (totalWords segs : ℚ) / (totalDuration segs / 60) < 80 then 40
       else if (totalWords segs : ℚ) / (totalDuration segs / 60) < 120 then 60
       else if (totalWords segs : ℚ) / (totalDuration segs / 60) < 190 then 90
       else 70) := by
  have hne : segs.isEmpty = false := by
    cases segs with
    | nil => exact absurd rfl h
    | cons a l => rfl
  constructor <;> simp only [analyzeDelivery, hne, Bool.false_eq_true, if_false]

/-- Witness for C7: wpm 150 → pace 90, wpm 60 → pace 40,
wpm 200 → pace 70 on concrete segment lists. -/
theorem pace_classification_witness :
    (analyzeDelivery [⟨"a b c d e", 0, 2⟩]).pace = 90 ∧
    (analyzeDelivery [⟨"a", 0, 1⟩]).pace = 40 ∧
    (analyzeDelivery [⟨"a b c d e f g h i j", 0, 3⟩]).pace = 70 := by
  have w1 : totalWords [(⟨"a b c d e", 0, 2⟩ : Segment)] = 5 := by decide
  have w2 : totalWords [(⟨"a", 0, 1⟩ : Segment)] = 1 := by decide
  have w3 : totalWords [(⟨"a b c d e f g h i j", 0, 3⟩ : Segment)] = 10 := by decide
  have d1 : totalDuration [(⟨"a b c d e", 0, 2⟩ : Segment)] = 2 := by
    simp [totalDuration]
  have d2 : totalDuration [(⟨"a", 0, 1⟩ : Segment)] = 1 := by
    simp [totalDuration]
  have d3 : totalDuration [(⟨"a b c d e f g h i j", 0, 3⟩ : Segment)] = 3 := by
    simp [totalDuration]
  refine ⟨?_, ?_, ?_⟩
  · rw [(pace_classification [⟨"a b c d e", 0, 2⟩] (by simp)
      (by rw [d1]; norm_num)).2, w1, d1]
    norm_num
  · rw [(pace_classification [⟨"a", 0, 1⟩] (by simp)
      (by rw [d2]; norm_num)).2, w2, d2]
    norm_num
  · rw [(pace_classification [⟨"a b c d e f g h i j", 0, 3⟩] (by simp)
      (by rw [d3]; norm_num)).2, w3, d3]
    norm_num

/-! ## C8: variability with too few segments -/

/-- C8 fails as stated: with a single timestamped segment the
timing-variability score is 0, not a neutral midpoint such as 50. -/
theorem variability_default_counterexample :
    (analyzeDelivery [⟨"hello world", 0, 1⟩]).variability = 0 ∧
    (analyzeDelivery [⟨"hello world", 0, 1⟩]).variability ≠ 50 := by
  have hw : wordDurations [(⟨"hello world", 0, 1⟩ : Segment)] = [1/2] := by
    simp only [wordDurations, List.filterMap]
    rw [show segWords ⟨"hello world", 0, 1⟩ = 2 from by decide]
    norm_num
  have : (analyzeDelivery [⟨"hello world", 0, 1⟩]).variability = 0 := by
    simp only [analyzeDelivery, List.isEmpty_cons, Bool.false_eq_true, if_false, hw]
    norm_num
  exact ⟨this, by rw [this]; norm_num⟩

/-- C8 amended: with fewer than 2 segments (so at most one positive
word-duration sample, far below the > 5 required) the variability score
defaults to 0. -/
theorem variability_default_zero (segs : List Segment) (h : segs.length < 2) :
    (analyzeDelivery segs).variability = 0 := by
  cases segs with
  | nil => rfl
  | cons a l =>
    cases l with
    | nil =>
      have hlen : (wordDurations [a]).length ≤ 1 := by
        simpa using List.length_filterMap_le _ [a]
      simp only [analyzeDelivery, List.isEmpty_cons, Bool.false_eq_true, if_false]
      have : ¬((wordDurations [a]).length > 5) := by omega
      simp [this]
    | cons b m => exact absurd h (by simp only [List.length_cons]; omega)

/-- Witness for C8's amended theorem at a concrete single segment. -/
theorem variability_default_zero_witness :
    ([(⟨"one two three", 0, 4⟩ : Segment)].length < 2) ∧
    (analyzeDelivery [⟨"one two three", 0, 4⟩]).variability = 0 :=
  ⟨by decide, variability_default_zero [⟨"one two three", 0, 4⟩] (by decide)⟩

/-! ## C9: filler counting distributes over sentences -/

theorem ciPrefix_append_of_le (pat a b : List Char) (h : pat.length ≤ a.length) :
    ciPrefix pat (a ++ b) = ciPrefix pat a := by
  induction pat generalizing a with
  | nil => cases a <;> rfl
  | cons p ps ih =>
    cases a with
    | nil => simp at h
    | cons x xs =>
      simp only [List.cons_append, ciPrefix, List.append_eq]
      rw [ih xs (by simpa using h)]

theorem ciPrefix_false_of_long (pat a : List Char) (h : a.length < pat.length) :
    ciPrefix pat a = false := by
  induction pat generalizing a with
  | nil => simp at h
  | cons p ps ih =>
    cases a with
    | nil => rfl
    | cons x xs =>
      simp only [ciPrefix]
      rw [ih xs (by simpa using h)]
      simp

/-- A pattern none of whose characters case-matches a period cannot match
across text that continues with `'.'`. -/
theorem ciPrefix_dot_false (pat a s2 : List Char)
    (hdot : ∀ c ∈ pat, ciEq c '.' = false) (h : a.length < pat.length) :
    ciPrefix pat (a ++ '.' :: s2) = false := by
  induction a generalizing pat with
  | nil =>
    cases pat with
    | nil => simp at h
    | cons p ps =>
      simp only [List.nil_append, ciPrefix]
      rw [hdot p (by simp)]
      rfl
  | cons x xs ih =>
    cases pat with
    | nil => simp at h
    | cons p ps =>
      simp only [List.cons_append, ciPrefix, List.append_eq]
      rw [ih ps (fun c hc => hdot c (by simp [hc])) (by simpa using h)]
      simp

/-- The scan only looks at `prev` through `boundaryOk`. -/
theorem scanAux_prev_congr (p : Char) (ps : List Char) (prev1 prev2 : Option Char)
    (h : boundaryOk prev1 = boundaryOk prev2) (s : List Char) :
    scanAux p ps prev1 s = scanAux p ps prev2 s := by
  cases s with
  | nil => rfl
  | cons c rest => rw [scanAux_cons, scanAux_cons, h]

/-- Scanning `s1 · ". " · s2` counts the matches of `s1` plus the matches
of `s2`: a separator-safe pattern can neither match starting at the `'.'`
or `' '` nor span from `s1` across the separator, and the separator
provides the same word boundary as the end/start of the text. -/
theorem scanAux_append_sep (p : Char) (ps : List Char)
    (hdot : ∀ c ∈ p :: ps, ciEq c '.' = false) (hsp : ciEq p ' ' = false) :
    ∀ (s1 : List Char) (prev : Option Char) (s2 : List Char),
      scanAux p ps prev (s1 ++ '.' :: ' ' :: s2) =
        scanAux p ps prev s1 + scanAux p ps (some ' ') s2 := by
  have hstart : ∀ (prev : Option Char) (s2 : List Char),
      scanAux p ps prev ('.' :: ' ' :: s2) = scanAux p ps (some ' ') s2 := by
    intro prev s2
    have h1 : ciPrefix (p :: ps) ('.' :: ' ' :: s2) = false := by
      simp only [ciPrefix]; rw [hdot p (by simp)]; rfl
    have h2 : ciPrefix (p :: ps) (' ' :: s2) = false := by
      simp only [ciPrefix]; rw [hsp]; rfl
    rw [scanAux_cons, h1]
    simp only [Bool.and_false, Bool.false_and]
    rw [if_neg (by simp)]
    rw [scanAux_cons, h2]
    simp only [Bool.and_false, Bool.false_and]
    rw [if_neg (by simp)]
  suffices H : ∀ (n : ℕ) (s1 : List Char), s1.length ≤ n →
      ∀ (prev : Option Char) (s2 : List Char),
      scanAux p ps prev (s1 ++ '.' :: ' ' :: s2) =
        scanAux p ps prev s1 + scanAux p ps (some ' ') s2 by
    intro s1 prev s2
    exact H s1.length s1 le_rfl prev s2
  intro n
  induction n with
  | zero =>
    intro s1 h1 prev s2
    have : s1 = [] := List.eq_nil_of_length_eq_zero (Nat.le_zero.mp h1)
    subst this
    simp only [List.nil_append, scanAux_nil, Nat.zero_add]
    exact hstart prev s2
  | succ n ih =>
    intro s1 h1 prev s2
    cases s1 with
    | nil =>
      simp only [List.nil_append, scanAux_nil, Nat.zero_add]
      exact hstart prev s2
    | cons c cs =>
      have hcs : cs.length ≤ n := by simpa using h1
      simp only [List.cons_append]
      rw [scanAux_cons, scanAux_cons p c ps cs prev]
      by_cases hL : ps.length + 1 ≤ cs.length + 1
      · have hLlen : ps.length + 1 ≤ (c :: cs).length := by
          simpa using hL
        have hpre : ciPrefix (p :: ps) (c :: (cs ++ '.' :: ' ' :: s2)) =
            ciPrefix (p :: ps) (c :: cs) := by
          rw [show c :: (cs ++ '.' :: ' ' :: s2) = (c :: cs) ++ '.' :: ' ' :: s2 from rfl]
          exact ciPrefix_append_of_le _ _ _ (by simpa using hLlen)
        have hdrop : (c :: (cs ++ '.' :: ' ' :: s2)).drop (ps.length + 1) =
            (c :: cs).drop (ps.length + 1) ++ '.' :: ' ' :: s2 := by
          rw [show c :: (cs ++ '.' :: ' ' :: s2) = (c :: cs) ++ '.' :: ' ' :: s2 from rfl]
          exact List.drop_append_of_le_length hLlen
        have htake : (c :: (cs ++ '.' :: ' ' :: s2)).take (ps.length + 1) =
            (c :: cs).take (ps.length + 1) := by
          rw [show c :: (cs ++ '.' :: ' ' :: s2) = (c :: cs) ++ '.' :: ' ' :: s2 from rfl]
          exact List.take_append_of_le_length hLlen
        have hbnd : boundaryOk ((c :: (cs ++ '.' :: ' ' :: s2)).drop (ps.length + 1)).head? =
            boundaryOk ((c :: cs).drop (ps.length + 1)).head? := by
          rw [hdrop]
          cases hdx : (c :: cs).drop (ps.length + 1) with
          | nil => rfl
          | cons y ys => rfl
        rw [hpre, hbnd, htake]
        by_cases hcond : (boundaryOk prev && ciPrefix (p :: ps) (c :: cs) &&
            boundaryOk ((c :: cs).drop (ps.length + 1)).head?) = true
        · rw [if_pos hcond, if_pos hcond, hdrop]
          have hdlen : ((c :: cs).drop (ps.length + 1)).length ≤ n := by
            simp only [List.length_drop, List.length_cons]
            omega
          rw [ih _ hdlen]
          omega
        · rw [if_neg hcond, if_neg hcond]
          exact ih cs hcs (some c) s2
      · have hgt : cs.length + 1 < ps.length + 1 := by omega
        have hpreF1 : ciPrefix (p :: ps) (c :: (cs ++ '.' :: ' ' :: s2)) = false := by
          rw [show c :: (cs ++ '.' :: ' ' :: s2) = (c :: cs) ++ '.' :: ' ' :: s2 from rfl]
          exact ciPrefix_dot_false (p :: ps) (c :: cs) (' ' :: s2) hdot
            (by simpa using hgt)
        have hpreF2 : ciPrefix (p :: ps) (c :: cs) = false :=
          ciPrefix_false_of_long (p :: ps) (c :: cs) (by simpa using hgt)
        rw [hpreF1, hpreF2]
        simp only [Bool.and_false, Bool.false_and]
        rw [if_neg (by simp), if_neg (by simp)]
        exact ih cs hcs (some c) s2

/-- Per-pattern distribution of match counting over rendered sentences. -/
theorem countMatches_render_sum (pat : List Char) (hsafe : SepSafePat pat = true) :
    ∀ l : List (List Char),
      countMatches pat (renderChars l) = (l.map (countMatches pat)).sum := by
  cases pat with
  | nil =>
    intro l
    induction l with
    | nil => rfl
    | cons s rest ih =>
      simp only [countMatches, List.map_cons, List.sum_cons] at ih ⊢
      omega
  | cons p ps =>
    have hsafe' := hsafe
    simp only [SepSafePat, Bool.and_eq_true, List.all_eq_true, Bool.not_eq_true'] at hsafe'
    obtain ⟨hall, hsp⟩ := hsafe'
    have hdot : ∀ c ∈ p :: ps, ciEq c '.' = false := fun c hc => hall c hc
    intro l
    induction l with
    | nil => rfl
    | cons s rest ih =>
      cases rest with
      | nil => simp [renderChars, countMatches]
      | cons s2 rest2 =>
        have hrender : renderChars (s :: s2 :: rest2) =
            s ++ '.' :: ' ' :: renderChars (s2 :: rest2) := rfl
        simp only [countMatches] at ih ⊢
        rw [hrender, scanAux_append_sep p ps hdot hsp s none (renderChars (s2 :: rest2)),
          scanAux_prev_congr p ps (some ' ') none (by decide) (renderChars (s2 :: rest2)),
          ih]
        simp [countMatches]

/-- C9.  Filler counting is order-independent across sentences: permuting
the sentence order of a transcript (each sentence's internal wording kept
intact, sentences joined by a `". "` boundary) leaves the total filler
count unchanged. -/
theorem filler_count_sentence_perm (l1 l2 : List (List Char)) (h : l1.Perm l2) :
    fillerCountChars (renderChars l1) = fillerCountChars (renderChars l2) := by
  have hsafe : ∀ f ∈ fillerWords, SepSafePat f.data = true := by decide
  unfold fillerCountChars
  congr 1
  apply List.map_congr_left
  intro f hf
  rw [countMatches_render_sum f.data (hsafe f hf) l1,
    countMatches_render_sum f.data (hsafe f hf) l2]
  exact (h.map (countMatches f.data)).sum_eq

/-- Witness for C9 on a concrete two-sentence transcript
("so" / "um ok"): swapping the sentences keeps the filler count, which
evaluates to 2. -/
theorem filler_count_sentence_perm_witness :
    fillerCountChars (renderChars [['s','o'], ['u','m',' ','o','k']]) =
      fillerCountChars (renderChars [['u','m',' ','o','k'], ['s','o']]) ∧
    fillerCountChars (renderChars [['s','o'], ['u','m',' ','o','k']]) = 2 :=
  ⟨filler_count_sentence_perm _ _ (List.Perm.swap _ _ _), by decide⟩

/-! ## C10: the rolling-buffer caps -/

theorem foldl_inv {σ α : Type*} (Inv : σ → Prop) (f : σ → α → σ)
    (hf : ∀ s a, Inv s → Inv (f s a)) :
    ∀ (l : List α) (s : σ), Inv s → Inv (l.foldl f s) := by
  intro l
  induction l with
  | nil => exact fun s h => h
  | cons a rest ih => exact fun s h => ih (f s a) (hf s a h)

theorem pushCapped30_inv (h : KpHist) (x y sc : ℚ)
    (hb : h.x.length ≤ 30 ∧ h.y.length = h.x.length ∧
      h.score.length = h.x.length) :
    (pushCapped30 h x y sc).x.length ≤ 30 ∧
    (pushCapped30 h x y sc).y.length = (pushCapped30 h x y sc).x.length ∧
    (pushCapped30 h x y sc).score.length = (pushCapped30 h x y sc).x.length := by
  obtain ⟨h1, h2, h3⟩ := hb
  simp only [pushCapped30]
  split <;> simp_all [List.length_append, List.length_drop]

theorem trackKeypoint_inv (w : ℚ) (st : MetricsState) (kp : Keypoint)
    (h : MetricsInv st) : MetricsInv (trackKeypoint w st kp) := by
  obtain ⟨hp, hk⟩ := h
  unfold trackKeypoint
  cases hn : kp.name with
  | none => exact ⟨hp, hk⟩
  | some n =>
    by_cases hne : n = ""
    · simp only [if_pos hne]
      exact ⟨hp, hk⟩
    · simp only [if_neg hne]
      have hnew : ∀ m hh,
          (if m = n then
            some (pushCapped30 ((st.keypointHistory n).getD ⟨[], [], []⟩)
              kp.x kp.y (kp.score.getD 0))
          else st.keypointHistory m) = some hh →
          hh.x.length ≤ 30 ∧ hh.y.length = hh.x.length ∧
            hh.score.length = hh.x.length := by
        intro m hh heq
        by_cases hmn : m = n
        · rw [if_pos hmn] at heq
          have hbase : ((st.keypointHistory n).getD ⟨[], [], []⟩).x.length ≤ 30 ∧
              ((st.keypointHistory n).getD ⟨[], [], []⟩).y.length =
                ((st.keypointHistory n).getD ⟨[], [], []⟩).x.length ∧
              ((st.keypointHistory n).getD ⟨[], [], []⟩).score.length =
                ((st.keypointHistory n).getD ⟨[], [], []⟩).x.length := by
            cases hsk : st.keypointHistory n with
            | none => simp
            | some hh0 => simpa using hk n hh0 hsk
          have := pushCapped30_inv _ kp.x kp.y (kp.score.getD 0) hbase
          rw [← Option.some_inj.mp heq]
          exact this
        · rw [if_neg hmn] at heq
          exact hk m hh heq
      split
      · split
        · split
          · exact ⟨hp, hnew⟩
          · exact ⟨hp, hnew⟩
        · exact ⟨hp, hnew⟩
      · exact ⟨hp, hnew⟩

theorem processFrame_inv (st : MetricsState) (f : ℚ × Option Pose)
    (h : MetricsInv st) : MetricsInv (processFrame st f) := by
  obtain ⟨hp, hk⟩ := h
  obtain ⟨w, po⟩ := f
  cases po with
  | none => exact ⟨hp, hk⟩
  | some pose =>
    show MetricsInv (processFrame st (w, some pose))
    simp only [processFrame]
    split
    · apply foldl_inv MetricsInv (trackKeypoint w) (trackKeypoint_inv w)
      refine ⟨?_, hk⟩
      split <;> rename_i hsp <;>
        simp only [List.length_drop, List.length_append, List.length_cons,
          List.length_nil] at hsp ⊢ <;> omega
    · exact ⟨hp, hk⟩

/-- C10.  After any sequence of processed frames, the pose history holds
at most 90 poses, and every named keypoint's x/y/score history arrays
hold at most 30 entries each and always have equal lengths. -/
theorem pose_buffer_caps (frames : List (ℚ × Option Pose)) :
    (runFrames frames).poseHistory.length ≤ 90 ∧
    ∀ n h, (runFrames frames).keypointHistory n = some h →
      h.x.length ≤ 30 ∧ h.y.length ≤ 30 ∧ h.score.length ≤ 30 ∧
      h.y.length = h.x.length ∧ h.score.length = h.x.length := by
  have hinv : MetricsInv (runFrames frames) := by
    unfold runFrames
    apply foldl_inv MetricsInv processFrame processFrame_inv
    refine ⟨by simp [initialMetricsState], fun n h hh => ?_⟩
    simp [initialMetricsState] at hh
  obtain ⟨hp, hk⟩ := hinv
  refine ⟨hp, fun n h hh => ?_⟩
  obtain ⟨a, b, c⟩ := hk n h hh
  exact ⟨a, by omega, by omega, b, c⟩

end QSpeech
